import Mathlib

/- Verification of the ticket-monitor repository: a shallow embedding of
models.py, config.py, watchlist.py, monitor.py, analyzer.py and
plugin_loader.py, followed by theorems about the embedded code. -/

namespace TicketMonitor

/- ===== models.py ===== -/

/-- The closed availability enumeration (models.TicketState). -/
inductive TicketState where
  | UNKNOWN
  | NOT_AVAILABLE
  | COMING_SOON
  | AVAILABLE
  | SOLD_OUT
deriving DecidableEq

/-- The `.value` string of each enum member (models.TicketState values). -/
def TicketState.value : TicketState → String
  | .UNKNOWN => "UNKNOWN"
  | .NOT_AVAILABLE => "NOT_AVAILABLE"
  | .COMING_SOON => "COMING_SOON"
  | .AVAILABLE => "AVAILABLE"
  | .SOLD_OUT => "SOLD_OUT"

/-- models.CheckResult (the `raw_states` dict is modelled as an assoc list). -/
structure CheckResult where
  state : TicketState
  details : String := ""
  event_name : Option String := none
  raw_states : List (String × String) := []

/-- models.WatchEntry: one persisted watchlist row. -/
structure WatchEntry where
  url : String
  plugin_name : String
  event_name : String := ""
  added_at : String := ""
  last_state : String := "UNKNOWN"
  last_check : String := ""
  consecutive_failures : Nat := 0

/- ===== config.py ===== -/

/-- config.BACKOFF_FACTOR = 2. -/
def BACKOFF_FACTOR : Nat := 2

/-- config.MAX_BACKOFF = 600 (10 minutes). -/
def MAX_BACKOFF : Nat := 600

/- POLL_INTERVAL is read from the environment (default 60); the polling step
below takes it as an explicit parameter. -/

/- ===== Python string primitives =====
Python compares strings lexicographically by code point, and
`s.startswith(p)` / `s.endswith(p)` test prefixes and suffixes.  They are
modelled on the character list of the string so that they compute. -/

/-- Lexicographic code-point comparison of character lists (Python `<=` on
the underlying characters of two strings). -/
def charListLe : List Char → List Char → Bool
  | [], _ => true
  | _ :: _, [] => false
  | a :: as, b :: bs => if a < b then true else if a = b then charListLe as bs else false

/-- Python string `a <= b` (lexicographic by code point). -/
def strLe (a b : String) : Bool := charListLe a.toList b.toList

/-- Python `s.startswith(p)`. -/
def strStartsWith (s p : String) : Bool := p.toList.isPrefixOf s.toList

/-- Python `s.endswith(p)`. -/
def strEndsWith (s p : String) : Bool := p.toList.isSuffixOf s.toList

/- ===== watchlist.py (per-row effect of the SQL statements) ===== -/

/-- watchlist.update_state: set `last_state` and `last_check`; reset
`consecutive_failures` to 0 exactly when `reset_failures` is true. -/
def update_state (e : WatchEntry) (state now : String) (reset_failures : Bool := true) :
    WatchEntry :=
  if reset_failures then
    { e with last_state := state, last_check := now, consecutive_failures := 0 }
  else
    { e with last_state := state, last_check := now }

/-- watchlist.increment_failures: add one to the counter and return the new
count (the row is assumed present, as it is for every polled entry). -/
def increment_failures (e : WatchEntry) : WatchEntry × Nat :=
  ({ e with consecutive_failures := e.consecutive_failures + 1 }, e.consecutive_failures + 1)

/- ===== assoc-list maps (Python dict / on-disk key-value views) ===== -/

/-- Lookup in an assoc list (Python `m.get(k)` / `m[k]`; keys are unique). -/
def alookup {α : Type} : List (String × α) → String → Option α
  | [], _ => none
  | (k', v) :: rest, k => if k' = k then some v else alookup rest k

/-- Update-or-insert in an assoc list (Python `m[k] = v`). -/
def aset {α : Type} : List (String × α) → String → α → List (String × α)
  | [], k, v => [(k, v)]
  | (k', v') :: rest, k, v =>
      if k' = k then (k, v) :: rest else (k', v') :: aset rest k v

/-- Remove a key from an assoc list (Python `m.pop(k, None)`). -/
def aremove {α : Type} (m : List (String × α)) (k : String) : List (String × α) :=
  m.filter fun p => p.1 ≠ k

/- ===== notifier.py / monitor.py: notifications ===== -/

/-- One outgoing notification message: notifier.send_telegram or
notifier.send_macos_notification. -/
inductive Send where
  | telegram (msg : String)
  | macos (title msg : String)
deriving DecidableEq

/-- Python `result.event_name or url`: `None` and the empty string are falsy. -/
def eventLabel (url : String) (event_name : Option String) : String :=
  match event_name with
  | none => url
  | some s => if s = "" then url else s

/-- Messages sent when the new state is AVAILABLE (monitor._handle_state_change). -/
def availabilitySends (url event details : String) : List Send :=
  [ .telegram ("*TICKETS AVAILABLE!*\n\n" ++ event ++ "\n[BOOK NOW](" ++ url ++ ")\n\n" ++ details),
    .macos "TICKETS AVAILABLE!" event ]

/-- Messages sent when the new state is COMING_SOON and the previous state was
NOT_AVAILABLE (monitor._handle_state_change). -/
def nowListedSends (url event details : String) : List Send :=
  [ .telegram ("*Event now listed!*\n\nStatus: Coming Soon\n" ++ event ++ "\n" ++ details ++
      "\n\n[View page](" ++ url ++ ")"),
    .macos "Event Listed!" (event ++ " — Coming Soon") ]

/-- Message sent when the new state is SOLD_OUT (monitor._handle_state_change). -/
def soldOutSends (event details : String) : List Send :=
  [ .telegram ("*Sold Out*\n" ++ event ++ "\n" ++ details) ]

/-- Generic state-change message (monitor._handle_state_change, else branch). -/
def genericSends (prev state event details : String) : List Send :=
  [ .telegram ("State changed: " ++ prev ++ " -> " ++ state ++ "\n" ++ event ++ "\n" ++ details) ]

/-- monitor._handle_state_change: the notifications for one detected change. -/
def handle_state_change (url prev : String) (result : CheckResult) : List Send :=
  let state := result.state.value
  let details := result.details
  let event := eventLabel url result.event_name
  if result.state = .AVAILABLE then
    availabilitySends url event details
  else if result.state = .COMING_SOON ∧ prev = "NOT_AVAILABLE" then
    nowListedSends url event details
  else if result.state = .SOLD_OUT then
    soldOutSends event details
  else
    genericSends prev state event details

/- ===== monitor.py: one entry of the polling loop body ===== -/

/-- Outcome of calling `plugin.parse_fn(html, url)`: either the call raises
(any exception) or it returns a CheckResult. -/
inductive ParseOutcome where
  | raises
  | returns (r : CheckResult)

/-- Everything the loop body changes for one entry: the persisted watchlist
row, the in-memory previous-state map, the notifications sent, and the
backoff delay logged on a fetch failure. -/
structure StepResult where
  entry : WatchEntry
  prevStates : List (String × String)
  sends : List Send
  backoff : Option Nat

/-- The body of monitor.cmd_run for a single watch entry after its plugin has
been resolved: `fetched` is the fetch_page content (None on fetch failure)
and `parseFn` is the plugin's parse call, applied to the content and the
entry's URL. -/
def pollEntryStep (pollInterval : Nat) (e : WatchEntry)
    (prevStates : List (String × String)) (fetched : Option String)
    (parseFn : String → String → ParseOutcome) (now : String) : StepResult :=
  match fetched with
  | none =>
      let ef := increment_failures e
      let backoff := min (pollInterval * BACKOFF_FACTOR ^ ef.2) MAX_BACKOFF
      ⟨ef.1, prevStates, [], some backoff⟩
  | some html =>
      match parseFn html e.url with
      | .raises => ⟨update_state e "UNKNOWN" now false, prevStates, [], none⟩
      | .returns result =>
          let state_str := result.state.value
          let e' := update_state e state_str now
          let prev := (alookup prevStates e.url).getD "UNKNOWN"
          if state_str ≠ prev then
            ⟨e', aset prevStates e.url state_str, handle_state_change e.url prev result, none⟩
          else
            ⟨e', prevStates, [], none⟩

/-- The previous-state map seeded at startup from the persisted rows
(monitor.cmd_run: `prev_states = {e.url: e.last_state for e in entries}`;
URLs are unique, being the table's primary key). -/
def seedPrevStates (entries : List WatchEntry) : List (String × String) :=
  entries.map fun e => (e.url, e.last_state)

/- ===== analyzer.py: AST-based plugin validation =====
The fragment of the Python abstract syntax consumed by
analyzer.validate_plugin_code: import statements, call expressions,
assignments and function definitions, plus enough other forms to build
arbitrary nesting.  `ast.parse` itself is not re-implemented; a source
string is represented by its parse result (`Except` of a syntax-error
message or a module). -/

/-- Python expression nodes (the constructors mirror the `ast` classes). -/
inductive PyExpr where
  | name (id : String)
  | attributeE (value : PyExpr) (attr : String)
  | call (func : PyExpr) (args : List PyExpr)
  | constant (repr : String)
  | listE (elts : List PyExpr)

/-- Python statement nodes.  An `importS` carries the dotted names of its
aliases; `importFrom` carries the optional dotted module (None for
`from . import x`). -/
inductive PyStmt where
  | importS (names : List String)
  | importFrom (module : Option String) (names : List String)
  | assign (targets : List PyExpr) (value : PyExpr)
  | functionDef (name : String) (body : List PyStmt)
  | exprStmt (e : PyExpr)
  | ret (e : Option PyExpr)
  | ifS (test : PyExpr) (body orelse : List PyStmt)

/-- A parsed module is its list of top-level statements. -/
abbrev PyModule := List PyStmt

/-- A node yielded by `ast.walk`. -/
inductive PyNode where
  | stmt (s : PyStmt)
  | expr (e : PyExpr)

mutual

/-- All nodes of an expression tree (the expression itself and every
descendant), as visited by `ast.walk`.  `ast.walk` is breadth-first; the
validator's checks only depend on which nodes occur, not on their order. -/
def walkExpr : PyExpr → List PyNode
  | .name i => [.expr (.name i)]
  | .attributeE v a => .expr (.attributeE v a) :: walkExpr v
  | .call f args => .expr (.call f args) :: (walkExpr f ++ walkExprs args)
  | .constant r => [.expr (.constant r)]
  | .listE elts => .expr (.listE elts) :: walkExprs elts

/-- All nodes of a list of expressions. -/
def walkExprs : List PyExpr → List PyNode
  | [] => []
  | e :: es => walkExpr e ++ walkExprs es

end

mutual

/-- All nodes of a statement tree (the statement itself and every
descendant). -/
def walkStmt : PyStmt → List PyNode
  | .importS ns => [.stmt (.importS ns)]
  | .importFrom m ns => [.stmt (.importFrom m ns)]
  | .assign ts v => .stmt (.assign ts v) :: (walkExprs ts ++ walkExpr v)
  | .functionDef n body => .stmt (.functionDef n body) :: walkStmts body
  | .exprStmt e => .stmt (.exprStmt e) :: walkExpr e
  | .ret e => .stmt (.ret e) :: (match e with | none => [] | some x => walkExpr x)
  | .ifS t b o => .stmt (.ifS t b o) :: (walkExpr t ++ walkStmts b ++ walkStmts o)

/-- All nodes of a list of statements. -/
def walkStmts : List PyStmt → List PyNode
  | [] => []
  | s :: ss => walkStmt s ++ walkStmts ss

end

/-- analyzer.ALLOWED_IMPORTS. -/
def ALLOWED_IMPORTS : List String := ["re", "json", "html", "html.parser", "urllib.parse", "models"]

/-- analyzer.FORBIDDEN_CALLS. -/
def FORBIDDEN_CALLS : List String :=
  ["exec", "eval", "compile", "__import__", "open", "getattr", "setattr", "delattr"]

/-- Python `name.split(".")[0]`: the characters before the first dot. -/
def topSegment (s : String) : String := String.mk (s.toList.takeWhile fun c => c ≠ '.')

/-- The called name of a call expression: a simple name's id, an attribute
access's attribute, otherwise None (analyzer.validate_plugin_code). -/
def callName : PyExpr → Option String
  | .name i => some i
  | .attributeE _ a => some a
  | _ => none

/-- The error strings the walk loop of analyzer.validate_plugin_code appends
for one visited node. -/
def nodeErrors : PyNode → List String
  | .stmt (.importS names) =>
      names.filterMap fun n =>
        if topSegment n ∈ ALLOWED_IMPORTS then none else some ("Forbidden import: " ++ n)
  | .stmt (.importFrom m _) =>
      match m with
      | none => []
      | some mod =>
          if topSegment mod ∈ ALLOWED_IMPORTS then [] else ["Forbidden import: from " ++ mod]
  | .expr (.call f _) =>
      match callName f with
      | some nm => if nm ∈ FORBIDDEN_CALLS then ["Forbidden call: " ++ nm ++ "()"] else []
      | none => []
  | _ => []

/-- Whether a node sets the `has_patterns` flag: an assignment with
`PLATFORM_PATTERNS` among its simple-name targets. -/
def isPatternsAssign : PyNode → Bool
  | .stmt (.assign ts _) =>
      ts.any fun t =>
        match t with
        | .name i => i = "PLATFORM_PATTERNS"
        | _ => false
  | _ => false

/-- Whether a node sets the `has_parse` flag: a function definition named
`parse`. -/
def isParseDef : PyNode → Bool
  | .stmt (.functionDef n _) => n = "parse"
  | _ => false

/-- analyzer.validate_plugin_code: a failed parse yields the single
SyntaxError violation; otherwise every walked node contributes its errors,
then the two missing-symbol violations are appended when no walked node set
the corresponding flag. -/
def validate_plugin_code : Except String PyModule → List String
  | .error e => ["SyntaxError: " ++ e]
  | .ok m =>
      ((walkStmts m).flatMap nodeErrors)
        ++ (if (walkStmts m).any isPatternsAssign then []
            else ["Missing PLATFORM_PATTERNS assignment"])
        ++ (if (walkStmts m).any isParseDef then []
            else ["Missing parse() function definition"])

/-- Following the words of claim C7 only (not the code): the module binds
`PLATFORM_PATTERNS` by an assignment at module scope, i.e. among its
top-level statements. -/
def definesPatternsAtModuleScope (m : PyModule) : Bool :=
  m.any fun s =>
    match s with
    | .assign ts _ =>
        ts.any fun t =>
          match t with
          | PyExpr.name i => i = "PLATFORM_PATTERNS"
          | _ => false
    | _ => false

/-- Following the words of claim C7 only (not the code): the module defines a
function named `parse` at module scope. -/
def definesParseAtModuleScope (m : PyModule) : Bool :=
  m.any fun s =>
    match s with
    | .functionDef n _ => n = "parse"
    | _ => false

/- ===== plugin_loader.py ===== -/

/-- plugin_loader.Plugin: the parse function is untrusted executable code;
its behaviour is abstracted by the type parameter `F`. -/
structure Plugin (F : Type) where
  name : String
  patterns : List String
  parse_fn : F

/-- The two module attributes extracted after executing a plugin source
(`getattr(mod, "PLATFORM_PATTERNS", None)` and `getattr(mod, "parse", None)`). -/
structure ModuleExports (F : Type) where
  platformPatterns : Option (List String)
  parseAttr : Option F

/-- The registry's mutable state: the plugins directory (filename to file
contents) and the process-wide load cache `_cache` (plugin name to Plugin). -/
structure RegistryState (F : Type) where
  files : List (String × String)
  cache : List (String × Plugin F)

/-- The fresh-load path of plugin_loader.load_plugin on a source string:
execute the module (`runModule` abstracts `_load_module` together with the
surrounding try/except, returning None when execution fails), then require
both exported symbols.  `re.search` is likewise abstracted by the `search`
parameter of `matches_url` below. -/
def loadFromSource {F : Type} (runModule : String → Option (ModuleExports F))
    (name code : String) : Option (Plugin F) :=
  match runModule code with
  | none => none
  | some mod =>
      match mod.platformPatterns, mod.parseAttr with
      | some patterns, some parse_fn => some ⟨name, patterns, parse_fn⟩
      | _, _ => none

/-- plugin_loader.load_plugin: answer from the cache when the name is cached;
otherwise read `plugins/{name}.py`, load it, and cache the result on
success. -/
def load_plugin {F : Type} (runModule : String → Option (ModuleExports F))
    (st : RegistryState F) (name : String) : Option (Plugin F) × RegistryState F :=
  match alookup st.cache name with
  | some p => (some p, st)
  | none =>
      match alookup st.files (name ++ ".py") with
      | none => (none, st)
      | some code =>
          match loadFromSource runModule name code with
          | none => (none, st)
          | some p => (some p, { st with cache := aset st.cache name p })

/-- plugin_loader.save_plugin: write `plugins/{name}.py` (overwriting) and
pop the name from the cache; returns the file path. -/
def save_plugin {F : Type} (st : RegistryState F) (name code : String) :
    RegistryState F × String :=
  ({ files := aset st.files (name ++ ".py") code,
     cache := aremove st.cache name },
   "plugins/" ++ name ++ ".py")

/-- plugin_loader.reload_plugin: evict from the cache, then load.  (Popping
`sys.modules` has no further effect here: `_load_module` always re-executes
the file via `spec_from_file_location` and `exec_module`.) -/
def reload_plugin {F : Type} (runModule : String → Option (ModuleExports F))
    (st : RegistryState F) (name : String) : Option (Plugin F) × RegistryState F :=
  load_plugin runModule { st with cache := aremove st.cache name } name

/-- plugin_loader.Plugin.matches_url: some pattern of the plugin matches the
URL under `re.search` semantics; the regex engine is abstracted by
`search : pattern → url → Bool`. -/
def matches_url {F : Type} (search : String → String → Bool) (p : Plugin F)
    (url : String) : Bool :=
  p.patterns.any fun pat => search pat url

/-- The filenames enumerated by plugin_loader.load_all_plugins:
`sorted(os.listdir(PLUGINS_DIR))` filtered to `.py` files not starting with
an underscore.  Python's `sorted` is a stable sort under the code-point
order `strLe`; it is modelled by insertion sort, which is stable and agrees
with any stable sort for a total preorder. -/
def pluginFileNames {F : Type} (st : RegistryState F) : List String :=
  ((st.files.map Prod.fst).insertionSort fun a b => strLe a b = true).filter fun fn =>
    !strStartsWith fn "_" && strEndsWith fn ".py"

/-- The loop of plugin_loader.load_all_plugins over the chosen filenames:
strip the `.py` suffix, load each plugin, skip the ones whose load fails. -/
def load_plugins_from {F : Type} (runModule : String → Option (ModuleExports F)) :
    List String → RegistryState F → List (Plugin F) × RegistryState F
  | [], st => ([], st)
  | fn :: rest, st =>
      match load_plugin runModule st (fn.dropRight 3) with
      | (none, st') => load_plugins_from runModule rest st'
      | (some p, st') =>
          match load_plugins_from runModule rest st' with
          | (ps, st'') => (p :: ps, st'')

/-- plugin_loader.load_all_plugins. -/
def load_all_plugins {F : Type} (runModule : String → Option (ModuleExports F))
    (st : RegistryState F) : List (Plugin F) × RegistryState F :=
  load_plugins_from runModule (pluginFileNames st) st

/-- plugin_loader.find_plugin_for_url: the first loaded plugin whose patterns
match the URL. -/
def find_plugin_for_url {F : Type} (runModule : String → Option (ModuleExports F))
    (search : String → String → Bool) (st : RegistryState F) (url : String) :
    Option (Plugin F) × RegistryState F :=
  match load_all_plugins runModule st with
  | (plugins, st') => (plugins.find? (fun p => matches_url search p url), st')

/- ===== helper lemmas ===== -/

theorem alookup_aset {α : Type} (m : List (String × α)) (k : String) (v : α) :
    alookup (aset m k v) k = some v := by
  induction m with
  | nil => simp [aset, alookup]
  | cons hd tl ih =>
      by_cases hk : hd.1 = k
      · simp [aset, hk, alookup]
      · simpa [aset, hk, alookup] using ih

theorem alookup_aremove {α : Type} (m : List (String × α)) (k : String) :
    alookup (aremove m k) k = none := by
  induction m with
  | nil => simp [aremove, alookup]
  | cons hd tl ih =>
      by_cases hk : hd.1 = k
      · simpa [aremove, hk, List.filter] using ih
      · simpa [aremove, hk, List.filter, alookup] using ih

theorem handle_state_change_ne_nil (url prev : String) (result : CheckResult) :
    0 < (handle_state_change url prev result).length := by
  simp only [handle_state_change]
  split
  · simp [availabilitySends]
  · split
    · simp [nowListedSends]
    · split
      · simp [soldOutSends]
      · simp [genericSends]

/- ===== C1 ===== -/

/-- C1: for an entry whose fetch succeeds and whose plugin parse call returns
normally, with `prev` the previous-state map's value for the entry's URL
(default UNKNOWN), the step sends the state-change notifications exactly when
the new state string differs from `prev` (and those notifications are
nonempty, so at least one fires); the notification set is the availability
alert for AVAILABLE, the now-listed alert for COMING_SOON after exactly
NOT_AVAILABLE, the sold-out alert for SOLD_OUT, and the generic message
otherwise; and the map entry is set to the new state exactly when a change
was detected. -/
theorem C1_notification_policy (pollInterval : Nat) (e : WatchEntry)
    (prevStates : List (String × String)) (html now prev : String)
    (parseFn : String → String → ParseOutcome) (result : CheckResult)
    (h : parseFn html e.url = ParseOutcome.returns result)
    (hprev : (alookup prevStates e.url).getD "UNKNOWN" = prev) :
    ((pollEntryStep pollInterval e prevStates (some html) parseFn now).sends =
        if result.state.value = prev then []
        else handle_state_change e.url prev result)
    ∧ ((pollEntryStep pollInterval e prevStates (some html) parseFn now).prevStates =
        if result.state.value = prev then prevStates
        else aset prevStates e.url result.state.value)
    ∧ 0 < (handle_state_change e.url prev result).length
    ∧ handle_state_change e.url prev result =
        (if result.state = .AVAILABLE then
          availabilitySends e.url (eventLabel e.url result.event_name) result.details
        else if result.state = .COMING_SOON ∧ prev = "NOT_AVAILABLE" then
          nowListedSends e.url (eventLabel e.url result.event_name) result.details
        else if result.state = .SOLD_OUT then
          soldOutSends (eventLabel e.url result.event_name) result.details
        else
          genericSends prev result.state.value (eventLabel e.url result.event_name)
            result.details) := by
  refine ⟨?_, ?_, handle_state_change_ne_nil e.url prev result, rfl⟩
  · simp only [pollEntryStep, h, hprev]
    by_cases hc : result.state.value = prev
    · simp [hc]
    · simp [hc]
  · simp only [pollEntryStep, h, hprev]
    by_cases hc : result.state.value = prev
    · simp [hc]
    · simp [hc]

def entryC1 : WatchEntry := { url := "https://t.example/e", plugin_name := "p" }

def resultC1 : CheckResult := { state := TicketState.COMING_SOON }

/-- Witness for C1: a COMING_SOON result after a previous NOT_AVAILABLE sends
exactly the now-listed notifications and records the new state. -/
theorem C1_witness :
    (pollEntryStep 60 entryC1 [("https://t.example/e", "NOT_AVAILABLE")] (some "<html>")
        (fun _ _ => ParseOutcome.returns resultC1) "t").sends =
      nowListedSends "https://t.example/e" "https://t.example/e" ""
    ∧ (pollEntryStep 60 entryC1 [("https://t.example/e", "NOT_AVAILABLE")] (some "<html>")
        (fun _ _ => ParseOutcome.returns resultC1) "t").prevStates =
      [("https://t.example/e", "COMING_SOON")] := by
  have h := C1_notification_policy 60 entryC1 [("https://t.example/e", "NOT_AVAILABLE")]
    "<html>" "t" "NOT_AVAILABLE" (fun _ _ => ParseOutcome.returns resultC1) resultC1 rfl rfl
  constructor
  · rw [h.1]
    decide
  · rw [h.2.1]
    decide

/- ===== C2 ===== -/

def entryC2 : WatchEntry := { url := "https://t.example/b", plugin_name := "p" }

def failStepC2 (e : WatchEntry) : StepResult :=
  pollEntryStep 60 e [] none (fun _ _ => ParseOutcome.raises) "t"

/-- C2: a fetch failure increments the entry's consecutive-failure counter
and logs a backoff of min(base * factor ^ failures, max) with `failures` the
post-increment counter; from a fresh entry with base interval 60 and factor
2, four consecutive failures yield backoffs 120, 240, 480 and the cap 600. -/
theorem C2_backoff_schedule :
    (∀ (pollInterval : Nat) (e : WatchEntry) (prevStates : List (String × String))
        (parseFn : String → String → ParseOutcome) (now : String),
        (pollEntryStep pollInterval e prevStates none parseFn now).entry.consecutive_failures =
            e.consecutive_failures + 1
        ∧ (pollEntryStep pollInterval e prevStates none parseFn now).backoff =
            some (min (pollInterval * BACKOFF_FACTOR ^ (e.consecutive_failures + 1)) MAX_BACKOFF))
    ∧ (failStepC2 entryC2).backoff = some 120
    ∧ (failStepC2 (failStepC2 entryC2).entry).backoff = some 240
    ∧ (failStepC2 (failStepC2 (failStepC2 entryC2).entry).entry).backoff = some 480
    ∧ (failStepC2 (failStepC2 (failStepC2 (failStepC2 entryC2).entry).entry).entry).backoff =
        some 600 := by
  refine ⟨fun pollInterval e prevStates parseFn now => ⟨?_, ?_⟩, ?_, ?_, ?_, ?_⟩
  · simp [pollEntryStep, increment_failures]
  · simp [pollEntryStep, increment_failures]
  · decide
  · decide
  · decide
  · decide

/- ===== C3 ===== -/

/-- C3: a fetch failure leaves `last_state` unchanged, and a parse call that
raises sets `last_state` to UNKNOWN while leaving `consecutive_failures`
unchanged from its pre-cycle value. -/
theorem C3_failure_frame (pollInterval : Nat) (e : WatchEntry)
    (prevStates : List (String × String)) (parseFn : String → String → ParseOutcome)
    (now html : String) :
    ((pollEntryStep pollInterval e prevStates none parseFn now).entry.last_state =
        e.last_state)
    ∧ (parseFn html e.url = ParseOutcome.raises →
        (pollEntryStep pollInterval e prevStates (some html) parseFn now).entry.last_state =
            "UNKNOWN"
        ∧ (pollEntryStep pollInterval e prevStates (some html) parseFn
              now).entry.consecutive_failures = e.consecutive_failures) := by
  constructor
  · simp [pollEntryStep, increment_failures]
  · intro h
    constructor
    · simp [pollEntryStep, h, update_state]
    · simp [pollEntryStep, h, update_state]

def entryC3 : WatchEntry :=
  { url := "https://t.example/c", plugin_name := "p", last_state := "SOLD_OUT",
    consecutive_failures := 5 }

/-- Witness for C3: on a concrete entry a fetch failure keeps SOLD_OUT, and a
crashing parse forces UNKNOWN while keeping the failure count 5. -/
theorem C3_witness :
    ((pollEntryStep 60 entryC3 [] none (fun _ _ => ParseOutcome.raises) "t").entry.last_state =
        "SOLD_OUT")
    ∧ ((pollEntryStep 60 entryC3 [] (some "<html>") (fun _ _ => ParseOutcome.raises)
          "t").entry.last_state = "UNKNOWN")
    ∧ ((pollEntryStep 60 entryC3 [] (some "<html>") (fun _ _ => ParseOutcome.raises)
          "t").entry.consecutive_failures = 5) := by
  have h := C3_failure_frame 60 entryC3 [] (fun _ _ => ParseOutcome.raises) "t" "<html>"
  exact ⟨h.1, (h.2 rfl).1, (h.2 rfl).2⟩

/- ===== C6 ===== -/

/-- C6: a source that fails to parse yields exactly one violation, the one
describing the syntax error, and nothing else. -/
theorem C6_syntax_error_single (e : String) :
    validate_plugin_code (.error e) = ["SyntaxError: " ++ e]
    ∧ (validate_plugin_code (.error e)).length = 1 :=
  ⟨rfl, rfl⟩

/- ===== C8 ===== -/

/-- C8: `save` writes the source under the plugin's filename (overwriting any
prior version), unconditionally evicts the name from the load cache, and the
next `load` therefore takes the fresh path on the newly saved source,
independent of whatever was cached before. -/
theorem C8_save_evicts_and_reloads {F : Type} (runModule : String → Option (ModuleExports F))
    (st : RegistryState F) (name code : String) :
    alookup ((save_plugin st name code).1).files (name ++ ".py") = some code
    ∧ alookup ((save_plugin st name code).1).cache name = none
    ∧ (load_plugin runModule (save_plugin st name code).1 name).1 =
        loadFromSource runModule name code := by
  refine ⟨alookup_aset st.files (name ++ ".py") code, alookup_aremove st.cache name, ?_⟩
  simp only [load_plugin, save_plugin, alookup_aremove, alookup_aset]
  cases hl : loadFromSource runModule name code with
  | none => simp [hl]
  | some p => simp [hl]

/- ===== C10 ===== -/

/-- C10: a cache hit answers `load` entirely from the cache: the stored
source is never consulted, so out-of-band deletion or replacement of the
backing file (and even a different module loader) changes nothing, and the
stale Plugin keeps being returned; `save` evicts the name, and `reload` goes
through an evicted cache. -/
theorem C10_cached_load_ignores_storage {F : Type}
    (runModule runModule' : String → Option (ModuleExports F)) (st : RegistryState F)
    (files' : List (String × String)) (name code : String) (p : Plugin F)
    (h : alookup st.cache name = some p) :
    load_plugin runModule st name = (some p, st)
    ∧ load_plugin runModule' { st with files := files' } name =
        (some p, { st with files := files' })
    ∧ alookup ((save_plugin st name code).1).cache name = none
    ∧ reload_plugin runModule st name =
        load_plugin runModule { st with cache := aremove st.cache name } name := by
  refine ⟨?_, ?_, alookup_aremove st.cache name, rfl⟩
  · simp [load_plugin, h]
  · simp [load_plugin, h]

/- ===== validator lemmas ===== -/

theorem topSegment_no_dot (s : String) : '.' ∉ (topSegment s).toList := by
  intro h
  simp only [topSegment] at h
  have := List.mem_takeWhile_imp h
  simp at this

theorem topSegment_notin_allowed {s : String}
    (h : topSegment s ∉ (["re", "json", "html", "urllib", "models"] : List String)) :
    topSegment s ∉ ALLOWED_IMPORTS := by
  intro hmem
  simp only [ALLOWED_IMPORTS, List.mem_cons, List.not_mem_nil, or_false] at hmem
  simp only [List.mem_cons, List.not_mem_nil, or_false, not_or] at h
  obtain ⟨h1, h2, h3, h4, h5⟩ := h
  rcases hmem with hx | hx | hx | hx | hx | hx
  · exact h1 hx
  · exact h2 hx
  · exact h3 hx
  · have hd := topSegment_no_dot s
    rw [hx] at hd
    exact hd (by decide)
  · have hd := topSegment_no_dot s
    rw [hx] at hd
    exact hd (by decide)
  · exact h5 hx

theorem mem_validate_of_walk {m : PyModule} {node : PyNode} {err : String}
    (hn : node ∈ walkStmts m) (he : err ∈ nodeErrors node) :
    err ∈ validate_plugin_code (.ok m) := by
  have hmem : err ∈ (walkStmts m).flatMap nodeErrors := List.mem_flatMap.mpr ⟨node, hn, he⟩
  simp only [validate_plugin_code]
  exact List.mem_append_left _ (List.mem_append_left _ hmem)

theorem nodeErrors_starts_F {node : PyNode} {err : String} (h : err ∈ nodeErrors node) :
    err.data.head? = some 'F' := by
  obtain s | e := node
  · cases s with
    | importS names =>
        simp only [nodeErrors] at h
        rcases List.mem_filterMap.mp h with ⟨n, _, hf⟩
        by_cases hc : topSegment n ∈ ALLOWED_IMPORTS
        · rw [if_pos hc] at hf
          exact absurd hf (by simp)
        · rw [if_neg hc] at hf
          obtain rfl : "Forbidden import: " ++ n = err := Option.some.inj hf
          rw [String.data_append]
          rfl
    | importFrom mo names =>
        cases mo with
        | none => simp [nodeErrors] at h
        | some mod =>
            simp only [nodeErrors] at h
            by_cases hc : topSegment mod ∈ ALLOWED_IMPORTS
            · rw [if_pos hc] at h
              exact absurd h (by simp)
            · rw [if_neg hc] at h
              obtain rfl := List.mem_singleton.mp h
              rw [String.data_append]
              rfl
    | assign ts v => exact absurd h (List.not_mem_nil _)
    | functionDef n b => exact absurd h (List.not_mem_nil _)
    | exprStmt e => exact absurd h (List.not_mem_nil _)
    | ret e => exact absurd h (List.not_mem_nil _)
    | ifS t b o => exact absurd h (List.not_mem_nil _)
  · cases e with
    | call f args =>
        simp only [nodeErrors] at h
        cases hc : callName f with
        | none =>
            rw [hc] at h
            exact absurd h (List.not_mem_nil _)
        | some nm =>
            rw [hc] at h
            simp only [] at h
            by_cases hforb : nm ∈ FORBIDDEN_CALLS
            · rw [if_pos hforb] at h
              obtain rfl := List.mem_singleton.mp h
              rw [String.data_append, String.data_append]
              rfl
            · rw [if_neg hforb] at h
              exact absurd h (List.not_mem_nil _)
    | name i => exact absurd h (List.not_mem_nil _)
    | attributeE v a => exact absurd h (List.not_mem_nil _)
    | constant r => exact absurd h (List.not_mem_nil _)
    | listE elts => exact absurd h (List.not_mem_nil _)

theorem count_flatMap_missing_zero (m : PyModule) (msg : String)
    (hM : msg.data.head? = some 'M') :
    List.count msg ((walkStmts m).flatMap nodeErrors) = 0 := by
  rw [List.count_eq_zero]
  intro hmem
  rcases List.mem_flatMap.mp hmem with ⟨node, _, he⟩
  have hF := nodeErrors_starts_F he
  rw [hF] at hM
  simp at hM

/- ===== C4 ===== -/

/-- C4: any import statement (plain or from-import) whose module path has a
top-level segment outside the allow-list re/json/html/urllib/models makes
`validate` return a non-empty list that contains the corresponding
forbidden-import violation. -/
theorem C4_import_allowlist (m : PyModule) :
    (∀ (names : List String) (n : String),
        PyNode.stmt (PyStmt.importS names) ∈ walkStmts m →
        n ∈ names →
        topSegment n ∉ (["re", "json", "html", "urllib", "models"] : List String) →
        validate_plugin_code (.ok m) ≠ []
        ∧ ("Forbidden import: " ++ n) ∈ validate_plugin_code (.ok m))
    ∧ (∀ (mod : String) (names : List String),
        PyNode.stmt (PyStmt.importFrom (some mod) names) ∈ walkStmts m →
        topSegment mod ∉ (["re", "json", "html", "urllib", "models"] : List String) →
        validate_plugin_code (.ok m) ≠ []
        ∧ ("Forbidden import: from " ++ mod) ∈ validate_plugin_code (.ok m)) := by
  constructor
  · intro names n hmem hn hout
    have hna := topSegment_notin_allowed hout
    have he : ("Forbidden import: " ++ n) ∈ nodeErrors (.stmt (.importS names)) := by
      simp only [nodeErrors]
      exact List.mem_filterMap.mpr ⟨n, hn, by rw [if_neg hna]⟩
    have hv := mem_validate_of_walk hmem he
    exact ⟨List.ne_nil_of_mem hv, hv⟩
  · intro mod names hmem hout
    have hna := topSegment_notin_allowed hout
    have he : ("Forbidden import: from " ++ mod) ∈
        nodeErrors (.stmt (.importFrom (some mod) names)) := by
      simp [nodeErrors, hna]
    have hv := mem_validate_of_walk hmem he
    exact ⟨List.ne_nil_of_mem hv, hv⟩

def modC4 : PyModule := [PyStmt.importS ["os"], PyStmt.importFrom (some "subprocess") ["run"]]

/-- Witness for C4: `import os` and `from subprocess import run` are both
flagged. -/
theorem C4_witness :
    ("Forbidden import: " ++ "os") ∈ validate_plugin_code (.ok modC4)
    ∧ ("Forbidden import: from " ++ "subprocess") ∈ validate_plugin_code (.ok modC4) := by
  have h := C4_import_allowlist modC4
  have hw : walkStmts modC4 =
      [PyNode.stmt (PyStmt.importS ["os"]),
       PyNode.stmt (PyStmt.importFrom (some "subprocess") ["run"])] := rfl
  refine ⟨(h.1 ["os"] "os" ?_ ?_ ?_).2, (h.2 "subprocess" ["run"] ?_ ?_).2⟩
  · rw [hw]
    exact List.mem_cons_self _ _
  · exact List.mem_cons_self _ _
  · decide
  · rw [hw]
    exact List.mem_cons_of_mem _ (List.mem_cons_self _ _)
  · decide

/- ===== C5 ===== -/

/-- C5: any call expression anywhere in the tree whose target is a simple
name or attribute name in the deny-list makes `validate` return a list
containing the forbidden-call violation for that name, reachable or not. -/
theorem C5_forbidden_calls (m : PyModule) (f : PyExpr) (args : List PyExpr) (nm : String)
    (hmem : PyNode.expr (PyExpr.call f args) ∈ walkStmts m)
    (hname : callName f = some nm) (hforb : nm ∈ FORBIDDEN_CALLS) :
    validate_plugin_code (.ok m) ≠ []
    ∧ ("Forbidden call: " ++ nm ++ "()") ∈ validate_plugin_code (.ok m) := by
  have he : ("Forbidden call: " ++ nm ++ "()") ∈ nodeErrors (.expr (.call f args)) := by
    simp [nodeErrors, hname, hforb]
  have hv := mem_validate_of_walk hmem he
  exact ⟨List.ne_nil_of_mem hv, hv⟩

def modC5 : PyModule := [PyStmt.exprStmt (PyExpr.call (PyExpr.name "eval") [])]

/-- Witness for C5: a bare `eval()` call is flagged. -/
theorem C5_witness :
    ("Forbidden call: " ++ "eval" ++ "()") ∈ validate_plugin_code (.ok modC5) := by
  have hw : walkStmts modC5 =
      [PyNode.stmt (PyStmt.exprStmt (PyExpr.call (PyExpr.name "eval") [])),
       PyNode.expr (PyExpr.call (PyExpr.name "eval") []),
       PyNode.expr (PyExpr.name "eval")] := rfl
  exact (C5_forbidden_calls modC5 (PyExpr.name "eval") [] "eval"
    (by rw [hw]; exact List.mem_cons_of_mem _ (List.mem_cons_self _ _)) rfl (by decide)).2

/- ===== C7 ===== -/

def modC7 : PyModule :=
  [PyStmt.functionDef "parse"
    [PyStmt.assign [PyExpr.name "PLATFORM_PATTERNS"] (PyExpr.listE []), PyStmt.ret none]]

/-- Counterexample to C7 as stated: this module does not bind
PLATFORM_PATTERNS at module scope (only inside the body of `parse`), yet
`validate` returns no violation at all, because the code walks the whole
tree (`ast.walk`) rather than only the module scope. -/
theorem C7_counterexample :
    definesPatternsAtModuleScope modC7 = false
    ∧ definesParseAtModuleScope modC7 = true
    ∧ validate_plugin_code (.ok modC7) = [] :=
  ⟨rfl, rfl, rfl⟩

/-- C7 (amended): the missing-PLATFORM_PATTERNS violation appears exactly
once when no assignment anywhere in the syntax tree binds PLATFORM_PATTERNS
to a simple-name target, and zero times otherwise; likewise the
missing-parse violation for a function definition named `parse` anywhere in
the tree; so both appear when both are missing and neither when both are
present (module scope included). -/
theorem C7_required_symbols (m : PyModule) :
    (validate_plugin_code (.ok m)).count "Missing PLATFORM_PATTERNS assignment" =
        (if (walkStmts m).any isPatternsAssign then 0 else 1)
    ∧ (validate_plugin_code (.ok m)).count "Missing parse() function definition" =
        (if (walkStmts m).any isParseDef then 0 else 1) := by
  have hA1 := count_flatMap_missing_zero m "Missing PLATFORM_PATTERNS assignment" rfl
  have hA2 := count_flatMap_missing_zero m "Missing parse() function definition" rfl
  constructor
  · simp only [validate_plugin_code, List.count_append, hA1]
    by_cases h1 : (walkStmts m).any isPatternsAssign <;>
      by_cases h2 : (walkStmts m).any isParseDef <;>
        simp [h1, h2, List.count_cons]
  · simp only [validate_plugin_code, List.count_append, hA2]
    by_cases h1 : (walkStmts m).any isPatternsAssign <;>
      by_cases h2 : (walkStmts m).any isParseDef <;>
        simp [h1, h2, List.count_cons]

def pluginC10 : Plugin Unit := ⟨"p", ["pat"], ()⟩

def stC10 : RegistryState Unit := { files := [("p.py", "old code")], cache := [("p", pluginC10)] }

/-- Witness for C10: with plugin `p` cached, `load` returns the cached Plugin
even from a registry whose backing file was deleted and whose loader always
fails. -/
theorem C10_witness :
    load_plugin (fun _ => none) stC10 "p" = (some pluginC10, stC10)
    ∧ load_plugin (fun _ => none) { stC10 with files := [] } "p" =
        (some pluginC10, { stC10 with files := [] }) := by
  have h := C10_cached_load_ignores_storage (fun _ => none) (fun _ => none) stC10 []
    "p" "new code" pluginC10 rfl
  exact ⟨h.1, h.2.1⟩

/- ===== C9 ===== -/

theorem charListLe_trans : ∀ (a b c : List Char),
    charListLe a b = true → charListLe b c = true → charListLe a c = true := by
  intro a
  induction a with
  | nil =>
      intro b c _ _
      rfl
  | cons x xs ih =>
      intro b c h1 h2
      cases b with
      | nil => simp [charListLe] at h1
      | cons y ys =>
          cases c with
          | nil => simp [charListLe] at h2
          | cons z zs =>
              simp only [charListLe] at h1 h2 ⊢
              by_cases hxy : x < y
              · by_cases hyz : y < z
                · rw [if_pos (lt_trans hxy hyz)]
                · by_cases hyz' : y = z
                  · subst hyz'
                    rw [if_pos hxy]
                  · rw [if_neg hyz, if_neg hyz'] at h2
                    exact absurd h2 (by simp)
              · by_cases hxy' : x = y
                · subst hxy'
                  rw [if_neg hxy, if_pos rfl] at h1
                  by_cases hxz : x < z
                  · rw [if_pos hxz]
                  · by_cases hxz' : x = z
                    · subst hxz'
                      rw [if_neg hxz, if_pos rfl] at h2 ⊢
                      exact ih ys zs h1 h2
                    · rw [if_neg hxz, if_neg hxz'] at h2
                      exact absurd h2 (by simp)
                · rw [if_neg hxy, if_neg hxy'] at h1
                  exact absurd h1 (by simp)

theorem charListLe_total : ∀ (a b : List Char),
    charListLe a b = true ∨ charListLe b a = true := by
  intro a
  induction a with
  | nil =>
      intro b
      left
      rfl
  | cons x xs ih =>
      intro b
      cases b with
      | nil =>
          right
          rfl
      | cons y ys =>
          simp only [charListLe]
          rcases lt_trichotomy x y with h | h | h
          · left
            rw [if_pos h]
          · subst h
            rcases ih ys with h' | h'
            · left
              rw [if_neg (lt_irrefl x), if_pos rfl]
              exact h'
            · right
              rw [if_neg (lt_irrefl x), if_pos rfl]
              exact h'
          · right
            rw [if_pos h]

theorem strLe_trans (a b c : String) :
    strLe a b = true → strLe b c = true → strLe a c = true :=
  charListLe_trans a.toList b.toList c.toList

instance : IsTrans String fun a b => strLe a b = true :=
  ⟨fun a b c => strLe_trans a b c⟩

instance : IsTotal String fun a b => strLe a b = true :=
  ⟨fun a b => by
    rcases charListLe_total a.toList b.toList with h | h
    exacts [Or.inl h, Or.inr h]⟩

/-- C9 (amended): the registry enumerates stored plugins in the stable
lexicographic order of their filenames (`name + ".py"`, which coincides with
name order unless a name contains a character ordered before the dot), skips
any plugin whose load fails without aborting, and `find_for_url` returns
exactly the first loaded plugin in that order whose patterns match the URL,
or none when none matches; the result is a pure function of the registry
state and URL. -/
theorem C9_find_first_match {F : Type} (runModule : String → Option (ModuleExports F))
    (search : String → String → Bool) (st : RegistryState F) (url : String) :
    (pluginFileNames st).Pairwise (fun a b => strLe a b = true)
    ∧ ((find_plugin_for_url runModule search st url).1 = none ↔
        ∀ p ∈ (load_all_plugins runModule st).1, matches_url search p url = false)
    ∧ (∀ p, (find_plugin_for_url runModule search st url).1 = some p ↔
        matches_url search p url = true ∧
        ∃ l₁ l₂, (load_all_plugins runModule st).1 = l₁ ++ p :: l₂ ∧
          ∀ q ∈ l₁, matches_url search q url = false)
    ∧ (∀ (fn : String) (rest : List String) (st₀ : RegistryState F),
        (load_plugin runModule st₀ (fn.dropRight 3)).1 = none →
        load_plugins_from runModule (fn :: rest) st₀ =
          load_plugins_from runModule rest (load_plugin runModule st₀ (fn.dropRight 3)).2) := by
  have hfind : (find_plugin_for_url runModule search st url).1 =
      ((load_all_plugins runModule st).1).find? fun p => matches_url search p url := by
    rcases h : load_all_plugins runModule st with ⟨plugins, st'⟩
    simp [find_plugin_for_url, h]
  refine ⟨?_, ?_, ?_, ?_⟩
  · simp only [pluginFileNames]
    exact List.Pairwise.filter _
      (List.sorted_insertionSort (fun a b => strLe a b = true) (st.files.map Prod.fst))
  · rw [hfind, List.find?_eq_none]
    constructor
    · intro h p hp
      simpa using h p hp
    · intro h p hp
      simp [h p hp]
  · intro p
    rw [hfind, List.find?_eq_some]
    constructor
    · rintro ⟨hpm, as, bs, heq, hall⟩
      exact ⟨hpm, as, bs, heq, fun q hq => by simpa using hall q hq⟩
    · rintro ⟨hpm, as, bs, heq, hall⟩
      exact ⟨hpm, as, bs, heq, fun q hq => by simpa using hall q hq⟩
  · intro fn rest st₀ hnone
    rcases hl : load_plugin runModule st₀ (fn.dropRight 3) with ⟨r, st'⟩
    rw [hl] at hnone
    change r = none at hnone
    subst hnone
    simp [load_plugins_from, hl]

def runModC9 : String → Option (ModuleExports Unit) := fun code =>
  if code = "B" then none else some ⟨some [code], some ()⟩

def stC9 : RegistryState Unit := { files := [("good.py", "P"), ("bad.py", "B")], cache := [] }

/-- Witness for C9: with a stored plugin `bad` that fails to load and a
stored plugin `good` that loads, enumeration skips `bad` and still yields
`good`. -/
theorem C9_witness :
    (load_plugin runModC9 stC9 "bad").1 = none
    ∧ load_plugins_from runModC9 ["bad.py", "good.py"] stC9 =
        load_plugins_from runModC9 ["good.py"] (load_plugin runModC9 stC9 "bad").2
    ∧ ((load_all_plugins runModC9 stC9).1.map fun p => p.name) = ["good"] := by
  refine ⟨rfl, ?_, rfl⟩
  exact (C9_find_first_match runModC9 (fun _ _ => true) stC9 "u").2.2.2 "bad.py" ["good.py"]
    stC9 rfl

def runModC9x : String → Option (ModuleExports Unit) := fun code => some ⟨some [code], some ()⟩

def stC9x : RegistryState Unit := { files := [("a.py", "A"), ("a-b.py", "B")], cache := [] }

/-- Counterexample to C9 as stated: plugins are enumerated in lexicographic
order of their filenames, not of their names.  With stored plugins `a` and
`a-b`, whose patterns both match the URL, the name `a` sorts strictly before
`a-b`, yet the enumeration yields `a-b` first (because `a-b.py` sorts before
`a.py`) and `find_for_url` returns the plugin named `a-b`, not the
lexicographically first matching name. -/
theorem C9_counterexample :
    ((load_all_plugins runModC9x stC9x).1.map fun p => p.name) = ["a-b", "a"]
    ∧ strLe "a" "a-b" = true
    ∧ ("a" : String) ≠ "a-b"
    ∧ (∀ p ∈ (load_all_plugins runModC9x stC9x).1, matches_url (fun _ _ => true) p "u" = true)
    ∧ (Option.map (fun p => p.name)
        (find_plugin_for_url runModC9x (fun _ _ => true) stC9x "u").1) = some "a-b" := by
  refine ⟨rfl, rfl, by decide, ?_, rfl⟩
  intro p hp
  have hl : (load_all_plugins runModC9x stC9x).1 =
      [⟨"a-b", ["B"], ()⟩, ⟨"a", ["A"], ()⟩] := rfl
  rw [hl] at hp
  rcases List.mem_cons.mp hp with rfl | hp
  · rfl
  · rcases List.mem_cons.mp hp with rfl | hp
    · rfl
    · exact absurd hp (List.not_mem_nil _)

end TicketMonitor
